import Mathlib

/-!
Verification of the simulation MCP server (simulator-mcp-server).

Shallow embedding of `server.py` and the five model solvers under
`models/`.  Python floats are modelled as rationals (`ℚ`); the numeric
library calls that the repository treats as external collaborators
(`scipy.integrate.solve_ivp`, `np.exp`, `np.cos`, `np.sin`, `np.sqrt`,
`np.pi`, the seeded / unseeded `np.random` streams, and the file-system
artifact writers) are oracle fields of an environment record, so every
theorem below is quantified over their behaviour.  Python `dict`s of
floats are modelled as association lists that keep insertion order,
matching Python 3 dict-order semantics.
-/

/-- A Python `Dict[str, float]`: insertion-ordered association list. -/
abbrev PyDict := List (String × ℚ)

/-- `d.get(k)` — first binding wins (Python dicts have unique keys). -/
def pyGet (d : PyDict) (k : String) : Option ℚ :=
  match d with
  | [] => none
  | (k0, v) :: rest => if k0 = k then some v else pyGet rest k

/-- `d.get(k, default)`. -/
def pyGetD (d : PyDict) (k : String) (dflt : ℚ) : ℚ :=
  (pyGet d k).getD dflt

/-- Python `int(x)` on a float: truncation toward zero. -/
def pyInt (q : ℚ) : ℤ :=
  if q < 0 then ⌈q⌉ else ⌊q⌋

/-- `np.abs` on a scalar. -/
def pyAbs (q : ℚ) : ℚ :=
  if q < 0 then -q else q

/-- `np.linspace(a, b, n)`: `n` evenly spaced points from `a` to `b`
inclusive (`a + i*(b-a)/(n-1)`). -/
def linspace (a b : ℚ) (n : ℕ) : List ℚ :=
  (List.range n).map (fun (i : ℕ) => a + (b - a) * (i : ℚ) / ((n : ℚ) - 1))

/-- `np.max` of a nonempty array (0 on the empty list, never hit). -/
def listMax : List ℚ → ℚ
  | [] => 0
  | x :: xs => xs.foldl max x

/-- `np.min` of a nonempty array (0 on the empty list, never hit). -/
def listMin : List ℚ → ℚ
  | [] => 0
  | x :: xs => xs.foldl min x

/-- `np.mean`: sum divided by length. -/
def listMean (l : List ℚ) : ℚ :=
  l.sum / (l.length : ℚ)

/-- `xs[-1]`: last element of a nonempty array. -/
def lastD (l : List ℚ) : ℚ :=
  l.getD (l.length - 1) 0

/-- `np.argmax`: index of the first occurrence of the maximum.
`argmaxAux best bestVal i rest` scans `rest` starting at index `i`. -/
def argmaxAux : ℕ → ℚ → ℕ → List ℚ → ℕ
  | best, _, _, [] => best
  | best, bestVal, i, x :: xs =>
    if bestVal < x then argmaxAux i x (i + 1) xs
    else argmaxAux best bestVal (i + 1) xs

/-- `np.argmax` over a list (0 on the empty list, as a junk value). -/
def argmaxIdx : List ℚ → ℕ
  | [] => 0
  | x :: xs => argmaxAux 0 x 1 xs

/-- `np.argmin`: index of the first occurrence of the minimum. -/
def argminAux : ℕ → ℚ → ℕ → List ℚ → ℕ
  | best, _, _, [] => best
  | best, bestVal, i, x :: xs =>
    if x < bestVal then argminAux i x (i + 1) xs
    else argminAux best bestVal (i + 1) xs

/-- `np.argmin` over a list (0 on the empty list, as a junk value). -/
def argminIdx : List ℚ → ℕ
  | [] => 0
  | x :: xs => argminAux 0 x 1 xs

/-- Insert into a sorted list (helper for `sortQ`). -/
def insertSorted (x : ℚ) : List ℚ → List ℚ
  | [] => [x]
  | y :: ys => if x ≤ y then x :: y :: ys else y :: insertSorted x ys

/-- Ascending sort, modelling `np.sort` as used by median/percentile. -/
def sortQ : List ℚ → List ℚ
  | [] => []
  | x :: xs => insertSorted x (sortQ xs)

/-- `np.median`: middle of the sorted data, averaging the two middle
elements for even length. -/
def medianQ (l : List ℚ) : ℚ :=
  let s := sortQ l
  let n := l.length
  if n % 2 = 1 then s.getD (n / 2) 0
  else (s.getD (n / 2 - 1) 0 + s.getD (n / 2) 0) / 2

/-- `np.percentile(l, q)` with the default linear interpolation:
position `q/100 * (n-1)`, interpolating between the two neighbouring
order statistics. -/
def percentileQ (q : ℚ) (l : List ℚ) : ℚ :=
  let s := sortQ l
  let n := l.length
  let pos := q / 100 * ((n : ℚ) - 1)
  let lo := (⌊pos⌋).toNat
  let frac := pos - (⌊pos⌋ : ℚ)
  s.getD lo 0 + frac * (s.getD (lo + 1) (s.getD lo 0) - s.getD lo 0)

/-- The three integration method selectors accepted by the request
schema (`Literal["RK45","RK23","DOP853"]`). -/
inductive Method where
  | RK45
  | RK23
  | DOP853
deriving DecidableEq, Repr

/-- Oracles for the deterministic external numeric collaborators.
`ode` models `scipy.integrate.solve_ivp` with the fixed tolerances
`rtol=1e-6, atol=1e-9` folded in: given the right-hand side, the time
span, the initial state vector, the method and the evaluation grid it
returns the state matrix (rows in initial-vector order, one column per
grid point, `sol.t` equal to the grid) or the failure diagnostic
`sol.message`. -/
structure MathEnv where
  ode : (ℚ → List ℚ → List ℚ) → (ℚ × ℚ) → List ℚ → Method → List ℚ →
        Except String (List (List ℚ))
  expQ : ℚ → ℚ
  cosQ : ℚ → ℚ
  sinQ : ℚ → ℚ
  sqrtQ : ℚ → ℚ
  piQ : ℚ

/-- Oracles for the `np.random` global generator: `seeded s` is the
stream of standard-normal draws produced after `np.random.seed(s)`
(indexed by consumption position), `ambient` the stream drawn when no
seed was set.  `np.random.normal(0, scale, n)` scales standard draws. -/
structure RandEnv where
  seeded : ℤ → ℕ → ℚ
  ambient : ℕ → ℚ

/-- A value stored in a solver metrics dict: a float, the `summary`
string, or (Monte Carlo only) the nested percentile structure. -/
inductive MetricValue where
  | num : ℚ → MetricValue
  | str : String → MetricValue
  | nested : List (String × List ℚ) → MetricValue
deriving DecidableEq, Repr

/-- A solver metrics dict, insertion-ordered. -/
abbrev Metrics := List (String × MetricValue)

/-- Lookup in a metrics dict. -/
def mGet (m : Metrics) (k : String) : Option MetricValue :=
  match m with
  | [] => none
  | (k0, v) :: rest => if k0 = k then some v else mGet rest k

/-- The uniform solver result shape: `(t, Y, metrics)` with `Y` indexed
`[variable][time]`. -/
abbrev SolverOut := List ℚ × List (List ℚ) × Metrics

/-! ## Model library (`models/*.py`) -/

/-- Right-hand side of the SIR model (`sir_rhs` in `models/sir.py`). -/
def sirRhs (beta gamma : ℚ) (_t : ℚ) (y : List ℚ) : List ℚ :=
  match y with
  | [s, i, _r] => [-beta * s * i, beta * s * i - gamma * i, gamma * i]
  | _ => []

/-- Display summary for SIR.  Decimal display formatting (`:.4f`,
`:.2f`) is abstracted to exact rational rendering. -/
def sirSummary (ipeak tpeak : ℚ) : String :=
  "Peak infection " ++ toString ipeak ++ " at t = " ++ toString tpeak

/-- `simulate_sir` (`models/sir.py`). -/
def simulate_sir (me : MathEnv) (parameters y0 : PyDict) (tspan : ℚ × ℚ)
    (steps : ℕ) (method : Method) : Except String SolverOut :=
  let beta := pyGetD parameters "beta" (3/10)
  let gamma := pyGetD parameters "gamma" (1/10)
  let s0 := pyGetD y0 "S" (99/100)
  let i0 := pyGetD y0 "I" (1/100)
  let r0 := pyGetD y0 "R" 0
  let tEval := linspace tspan.1 tspan.2 steps
  match me.ode (sirRhs beta gamma) tspan [s0, i0, r0] method tEval with
  | .error msg => .error msg   -- `raise RuntimeError(sol.message)`
  | .ok Y =>
    let iVals := Y.getD 1 []
    let iPeak := listMax iVals
    let tPeak := tEval.getD (argmaxIdx iVals) 0
    .ok (tEval, Y,
      [("I_peak", .num iPeak), ("t_peak", .num tPeak),
       ("summary", .str (sirSummary iPeak tPeak))])

/-- Right-hand side of the Lotka-Volterra model
(`lv_rhs` in `models/lotka_volterra.py`). -/
def lvRhs (alpha beta delta gamma : ℚ) (_t : ℚ) (y : List ℚ) : List ℚ :=
  match y with
  | [x, yPred] =>
    [alpha * x - beta * x * yPred, delta * x * yPred - gamma * yPred]
  | _ => []

/-- Display summary for Lotka-Volterra (formatting abstracted). -/
def lvSummary (xmin xmax xmean ymin ymax ymean : ℚ) : String :=
  "Prey: " ++ toString xmin ++ "-" ++ toString xmax ++ " (avg " ++
    toString xmean ++ "), Predator: " ++ toString ymin ++ "-" ++
    toString ymax ++ " (avg " ++ toString ymean ++ ")"

/-- `simulate_lotka_volterra` (`models/lotka_volterra.py`). -/
def simulate_lotka_volterra (me : MathEnv) (parameters y0 : PyDict)
    (tspan : ℚ × ℚ) (steps : ℕ) (method : Method) :
    Except String SolverOut :=
  let alpha := pyGetD parameters "alpha" 1
  let beta := pyGetD parameters "beta" (1/10)
  let delta := pyGetD parameters "delta" (75/1000)
  let gamma := pyGetD parameters "gamma" (3/2)
  let x0 := pyGetD y0 "x" 10
  let y0val := pyGetD y0 "y" 5
  let tEval := linspace tspan.1 tspan.2 steps
  match me.ode (lvRhs alpha beta delta gamma) tspan [x0, y0val] method tEval with
  | .error msg => .error msg
  | .ok Y =>
    let xVals := Y.getD 0 []
    let yVals := Y.getD 1 []
    let xMax := listMax xVals
    let xMin := listMin xVals
    let yMax := listMax yVals
    let yMin := listMin yVals
    let xMean := listMean xVals
    let yMean := listMean yVals
    .ok (tEval, Y,
      [("x_max", .num xMax), ("x_min", .num xMin), ("x_mean", .num xMean),
       ("y_max", .num yMax), ("y_min", .num yMin), ("y_mean", .num yMean),
       ("summary", .str (lvSummary xMin xMax xMean yMin yMax yMean))])

/-- Right-hand side of the logistic model
(`logistic_rhs` in `models/logistic.py`). -/
def logisticRhs (r k : ℚ) (_t : ℚ) (y : List ℚ) : List ℚ :=
  match y with
  | [p] => [r * p * (1 - p / k)]
  | _ => []

/-- Display summary for the logistic model (formatting abstracted). -/
def logisticSummary (pInit pFinal k tNinety : ℚ) : String :=
  "Population grows from " ++ toString pInit ++ " to " ++ toString pFinal ++
    " (K=" ++ toString k ++ "), reaching 90 percent at t = " ++ toString tNinety

/-- `simulate_logistic` (`models/logistic.py`). -/
def simulate_logistic (me : MathEnv) (parameters y0 : PyDict)
    (tspan : ℚ × ℚ) (steps : ℕ) (method : Method) :
    Except String SolverOut :=
  let r := pyGetD parameters "r" (1/2)
  let k := pyGetD parameters "K" 100
  let p0 := pyGetD y0 "P" 10
  let tEval := linspace tspan.1 tspan.2 steps
  match me.ode (logisticRhs r k) tspan [p0] method tEval with
  | .error msg => .error msg
  | .ok Y =>
    let pVals := Y.getD 0 []
    let pInitial := pVals.getD 0 0
    let pFinal := lastD pVals
    let pMax := listMax pVals
    let halfway := k * (1/2)
    let idxHalfway := argminIdx (pVals.map (fun v => pyAbs (v - halfway)))
    let tHalfway := tEval.getD idxHalfway 0
    let ninety := k * (9/10)
    let idxNinety := argminIdx (pVals.map (fun v => pyAbs (v - ninety)))
    let tNinety := tEval.getD idxNinety 0
    .ok (tEval, Y,
      [("P_initial", .num pInitial), ("P_final", .num pFinal),
       ("P_max", .num pMax), ("K", .num k),
       ("t_halfway", .num tHalfway), ("t_ninety", .num tNinety),
       ("summary", .str (logisticSummary pInitial pFinal k tNinety))])

/-- Right-hand side of projectile motion
(`projectile_rhs` in `models/projectile.py`). -/
def projectileRhs (g : ℚ) (_t : ℚ) (y : List ℚ) : List ℚ :=
  match y with
  | [_x, _yPos, vx, vy] => [vx, vy, 0, -g]
  | _ => []

/-- Resolution of the projectile initial state vector `[x0, y0, vx0, vy0]`
(`models/projectile.py` lines 34-60): a velocity component present in
`y0` and nonzero is used verbatim, otherwise it is derived as
`v0*cos(angle_rad)` / `v0*sin(angle_rad)` with
`angle_rad = np.deg2rad(angle) = angle * pi / 180`. -/
def projectileY0 (me : MathEnv) (parameters y0 : PyDict) : List ℚ :=
  let v0 := pyGetD parameters "v0" 20
  let angleDeg := pyGetD parameters "angle" 45
  let angleRad := angleDeg * me.piQ / 180
  let vx0calc := v0 * me.cosQ angleRad
  let vy0calc := v0 * me.sinQ angleRad
  let x0 := pyGetD y0 "x" 0
  let y0val := pyGetD y0 "y" 0
  let vx0 := match pyGet y0 "vx" with
    | some v => if v ≠ 0 then v else vx0calc
    | none => vx0calc
  let vy0 := match pyGet y0 "vy" with
    | some v => if v ≠ 0 then v else vy0calc
    | none => vy0calc
  [x0, y0val, vx0, vy0]

/-- The landing-index search (`models/projectile.py` lines 90-93):
`landing_idx = len(y)-1; for i in range(1, len(y)): if y[i] < h0 <= y[i-1]: landing_idx = i`.
`lastHit p a l` folds the loop: the accumulator is overwritten by every
index of `l` satisfying `p`, so the last hit (or `a`) survives. -/
def lastHit (p : ℕ → Prop) [DecidablePred p] (a : ℕ) : List ℕ → ℕ
  | [] => a
  | i :: rest => lastHit p (if p i then i else a) rest

/-- The transition test of the landing loop at index `i`:
`y_vals[i] < initial_height and y_vals[i-1] >= initial_height`. -/
def landingCond (yVals : List ℚ) (h0 : ℚ) (i : ℕ) : Prop :=
  yVals.getD i 0 < h0 ∧ h0 ≤ yVals.getD (i - 1) 0

instance (yVals : List ℚ) (h0 : ℚ) : DecidablePred (landingCond yVals h0) :=
  fun i => by unfold landingCond; infer_instance

/-- `landing_idx` as computed by the source loop over
`range(1, len(y_vals))` with initial value `len(y_vals) - 1`. -/
def landingIdx (yVals : List ℚ) (h0 : ℚ) : ℕ :=
  lastHit (landingCond yVals h0) (yVals.length - 1)
    (List.range' 1 (yVals.length - 1))

/-- Elementwise speed magnitude `np.sqrt(vx**2 + vy**2)`. -/
def vTotalList (me : MathEnv) (vxVals vyVals : List ℚ) : List ℚ :=
  List.zipWith (fun a b => me.sqrtQ (a ^ 2 + b ^ 2)) vxVals vyVals

/-- Display summary for the projectile model (formatting abstracted). -/
def projectileSummary (ymax tmax range tland : ℚ) : String :=
  "Projectile reaches max height " ++ toString ymax ++ "m at t = " ++
    toString tmax ++ "s, lands at x=" ++ toString range ++ "m (t = " ++
    toString tland ++ "s)"

/-- `simulate_projectile` (`models/projectile.py`). -/
def simulate_projectile (me : MathEnv) (parameters y0 : PyDict)
    (tspan : ℚ × ℚ) (steps : ℕ) (method : Method) :
    Except String SolverOut :=
  let g := pyGetD parameters "g" (981/100)
  let v0 := pyGetD parameters "v0" 20
  let angleDeg := pyGetD parameters "angle" 45
  let y0vec := projectileY0 me parameters y0
  let tEval := linspace tspan.1 tspan.2 steps
  match me.ode (projectileRhs g) tspan y0vec method tEval with
  | .error msg => .error msg
  | .ok Y =>
    let xVals := Y.getD 0 []
    let yVals := Y.getD 1 []
    let vxVals := Y.getD 2 []
    let vyVals := Y.getD 3 []
    let yMax := listMax yVals
    let tMaxHeight := tEval.getD (argmaxIdx yVals) 0
    let initialHeight := pyGetD y0 "y" 0
    let li := landingIdx yVals initialHeight
    let rangeVal := xVals.getD li 0
    let tLanding := tEval.getD li 0
    let vTotal := vTotalList me vxVals vyVals
    let vMax := listMax vTotal
    let vFinal := vTotal.getD li 0
    .ok (tEval, Y,
      [("max_height", .num yMax), ("t_max_height", .num tMaxHeight),
       ("range", .num rangeVal), ("t_landing", .num tLanding),
       ("v_initial", .num v0), ("v_final", .num vFinal),
       ("v_max", .num vMax), ("angle_deg", .num angleDeg),
       ("summary", .str (projectileSummary yMax tMaxHeight rangeVal tLanding))])

/-- One geometric-Brownian-motion path (`models/monte_carlo.py` lines
49-60).  `mcPath expQ stream sqrtDt mu sigma dt s0 nPaths p i` is
`paths[p, i]`: the loop iteration `i` draws
`dW = np.random.normal(0, sqrt(dt), n_paths)`, i.e. the draw for path
`p` at iteration `i` is `sqrt(dt)` times the standard draw at stream
position `(i-1)*n_paths + p`, and multiplies by
`exp((mu - 0.5*sigma^2)*dt + sigma*dW)`. -/
def mcPath (expQ : ℚ → ℚ) (stream : ℕ → ℚ) (sqrtDt mu sigma dt s0 : ℚ)
    (nPaths p : ℕ) : ℕ → ℚ
  | 0 => s0
  | i + 1 =>
    mcPath expQ stream sqrtDt mu sigma dt s0 nPaths p i *
      expQ ((mu - 1/2 * sigma ^ 2) * dt +
        sigma * (sqrtDt * stream (i * nPaths + p)))

/-- Display summary for Monte Carlo (formatting abstracted). -/
def mcSummary (nPaths : ℕ) (finalMean expectedReturn probProfit : ℚ) :
    String :=
  "Monte Carlo (" ++ toString nPaths ++ " paths): Mean final price " ++
    toString finalMean ++ " (return " ++ toString expectedReturn ++
    " percent), probability of profit " ++ toString probProfit ++ " percent"

/-- `simulate_monte_carlo` (`models/monte_carlo.py`).  The `method`
selector is accepted for API consistency and never used.  The random
draws come from `re.seeded (int seed)` when a `seed` parameter is
present (`np.random.seed(int(seed))`), otherwise from the ambient
global stream. -/
def simulate_monte_carlo (me : MathEnv) (re : RandEnv)
    (parameters y0 : PyDict) (tspan : ℚ × ℚ) (steps : ℕ)
    ( method : Method) : Except String SolverOut :=
  let mu := pyGetD parameters "mu" (1/10)
  let sigma := pyGetD parameters "sigma" (1/5)
  let nPaths := (pyInt (pyGetD parameters "n_paths" 100)).toNat
  let stream : ℕ → ℚ := match pyGet parameters "seed" with
    | some s => re.seeded (pyInt s)
    | none => re.ambient
  let s0 := pyGetD y0 "S" 100
  let t := linspace tspan.1 tspan.2 steps
  let dt := if 1 < steps then (tspan.2 - tspan.1) / ((steps : ℚ) - 1) else 0
  let path : ℕ → ℕ → ℚ := fun p i =>
    mcPath me.expQ stream (me.sqrtQ dt) mu sigma dt s0 nPaths p i
  let pathsAt : ℕ → List ℚ := fun i =>
    (List.range nPaths).map (fun p => path p i)
  let sMean := (List.range steps).map (fun i => listMean (pathsAt i))
  let sMedian := (List.range steps).map (fun i => medianQ (pathsAt i))
  let sStd := (List.range steps).map
    (fun i => me.sqrtQ (listMean ((pathsAt i).map
      (fun x => (x - listMean (pathsAt i)) ^ 2))))
  let sMin := (List.range steps).map (fun i => listMin (pathsAt i))
  let sMax := (List.range steps).map (fun i => listMax (pathsAt i))
  let sP5 := (List.range steps).map (fun i => percentileQ 5 (pathsAt i))
  let sP25 := (List.range steps).map (fun i => percentileQ 25 (pathsAt i))
  let sP75 := (List.range steps).map (fun i => percentileQ 75 (pathsAt i))
  let sP95 := (List.range steps).map (fun i => percentileQ 95 (pathsAt i))
  let finalMean := lastD sMean
  let finalMedian := lastD sMedian
  let finalStd := lastD sStd
  let finalMin := lastD sMin
  let finalMax := lastD sMax
  let expectedReturn := (finalMean - s0) / s0 * 100
  let maxReturn := (finalMax - s0) / s0 * 100
  let minReturn := (finalMin - s0) / s0 * 100
  let probProfit :=
    listMean ((pathsAt (steps - 1)).map
      (fun x => if s0 < x then (1 : ℚ) else 0)) * 100
  .ok (t, [sMean],
    [("S_initial", .num s0), ("S_final_mean", .num finalMean),
     ("S_final_median", .num finalMedian), ("S_final_std", .num finalStd),
     ("S_final_min", .num finalMin), ("S_final_max", .num finalMax),
     ("expected_return_pct", .num expectedReturn),
     ("max_return_pct", .num maxReturn),
     ("min_return_pct", .num minReturn),
     ("prob_profit_pct", .num probProfit),
     ("n_paths", .num (nPaths : ℚ)), ("mu", .num mu), ("sigma", .num sigma),
     ("summary", .str (mcSummary nPaths finalMean expectedReturn probProfit)),
     ("percentiles", .nested [("p5", sP5), ("p25", sP25),
                              ("p75", sP75), ("p95", sP95)])])

/-! ## Server pipeline (`server.py`) -/

/-- The request `domain` enum. -/
inductive Domain where
  | epidemiology
  | physics
  | finance
  | custom
deriving DecidableEq, Repr

/-- Name of a domain as it appears in error messages. -/
def domainName : Domain → String
  | .epidemiology => "epidemiology"
  | .physics => "physics"
  | .finance => "finance"
  | .custom => "custom"

/-- The request `model_type` enum. -/
inductive ModelType where
  | SIR
  | LotkaVolterra
  | Logistic
  | Projectile
  | MonteCarlo
deriving DecidableEq, Repr

/-- Name of a model type as it appears in error messages. -/
def modelTypeName : ModelType → String
  | .SIR => "SIR"
  | .LotkaVolterra => "LotkaVolterra"
  | .Logistic => "Logistic"
  | .Projectile => "Projectile"
  | .MonteCarlo => "MonteCarlo"

/-- The `TimeSpan` request model.  The pydantic validator enforces
`steps >= 2`; theorems take that as a hypothesis where needed.
(`end` is a Lean keyword, hence `tEnd`.) -/
structure TimeSpan where
  start : ℚ
  tEnd : ℚ
  steps : ℕ
  preview_mode : Bool

/-- The `SimulateModelInput` request model.  The unused `sensitivity`
and `tags` pass-through fields are omitted: no code path reads them. -/
structure SimulateModelInput where
  domain : Domain
  model_type : ModelType
  parameters : PyDict
  initial_conditions : PyDict
  time_span : TimeSpan
  method : Method
  return_data : Bool
  save_artifacts : Bool

/-- An artifact descriptor (`kind`, `path`); the optional hash is never
populated by `simulate_model` and is omitted. -/
structure Artifact where
  kind : String
  path : String
deriving DecidableEq, Repr

/-- The `SimulateModelOutput` response model.  `metrics` is typed
`Dict[str, float]` in the source. -/
structure SimulateModelOutput where
  status : String
  message : String
  summary : Option String
  artifacts : List Artifact
  metrics : List (String × ℚ)
  columns : Option (List String)
  data : Option (List (List (String × ℚ)))
deriving DecidableEq, Repr

/-- A `CallToolResult` as produced by `simulate_model`: either a
structured error (`isError=True` with a message) or the structured
success payload. -/
inductive ToolResult where
  | errorResult : String → ToolResult
  | success : SimulateModelOutput → ToolResult
deriving DecidableEq, Repr

/-- The solver registry `SOLVERS` keyed by `(domain, model_type)`;
lookup returns the solver closure or `none` (`key not in SOLVERS`). -/
def SOLVERS (me : MathEnv) (re : RandEnv) (d : Domain) (m : ModelType) :
    Option (PyDict → PyDict → ℚ × ℚ → ℕ → Method → Except String SolverOut) :=
  match d, m with
  | .epidemiology, .SIR => some (simulate_sir me)
  | .epidemiology, .LotkaVolterra => some (simulate_lotka_volterra me)
  | .epidemiology, .Logistic => some (simulate_logistic me)
  | .physics, .Projectile => some (simulate_projectile me)
  | .finance, .MonteCarlo => some (simulate_monte_carlo me re)
  | _, _ => none

/-- The `(domain, model)` pairs present in the registry. -/
def registeredPairs : List (Domain × ModelType) :=
  [(.epidemiology, .SIR), (.epidemiology, .LotkaVolterra),
   (.epidemiology, .Logistic), (.physics, .Projectile),
   (.finance, .MonteCarlo)]

/-- The registry-miss error text (`server.py` line 204). -/
def noSolverMsg (d : Domain) (m : ModelType) : String :=
  "No solver registered for domain=" ++ domainName d ++
    ", model_type=" ++ modelTypeName m

/-- The preview-mode step policy (`server.py` lines 208-212):
`actual_steps = min(steps, 100)` when `preview_mode` else `steps`. -/
def actualSteps (ts : TimeSpan) : ℕ :=
  if ts.preview_mode then min ts.steps 100 else ts.steps

/-- Python `float(v)` applied to a metrics value (`server.py` line 284).
A float passes through; the nested percentile dict raises
`TypeError` (modelled as `Except.error`).  The only string value ever
present is `summary`, which the comprehension filters out first, so the
string branch is likewise an error branch (a non-numeric string would
raise `ValueError`). -/
def pyFloat : MetricValue → Except String ℚ
  | .num q => .ok q
  | .str _ => .error "ValueError: could not convert string to float"
  | .nested _ => .error "TypeError: float() argument must be a string or a number, not dict"

/-- The metrics comprehension
`{k: float(v) for k, v in metrics.items() if k != "summary"}`:
entries other than `summary` are converted with `float`; the first
conversion failure escapes as an exception. -/
def numericMetrics : Metrics → Except String (List (String × ℚ))
  | [] => .ok []
  | (k, v) :: rest =>
    if k = "summary" then numericMetrics rest
    else
      match pyFloat v with
      | .error e => .error e
      | .ok q =>
        match numericMetrics rest with
        | .error e => .error e
        | .ok tail => .ok ((k, q) :: tail)

/-- `metrics.get("summary", "")` (`server.py` line 278); every solver
stores a string there, so the non-string branches are dead. -/
def summaryOf (m : Metrics) : String :=
  match mGet m "summary" with
  | some (.str s) => s
  | _ => ""

/-- One converted data row (`server.py` lines 268-271):
`point = {"t": t[i]}` then `point[header] = float(Y[idx, i])` for each
header.  `rowEntries Y i hs idx` builds the header entries starting at
row index `idx`; `none` models the `IndexError` raised when a header
has no matching row/column. -/
def rowEntries (Y : List (List ℚ)) (i : ℕ) :
    List String → ℕ → Option (List (String × ℚ))
  | [], _ => some []
  | h :: hs, idx =>
    match Y.get? idx with
    | none => none
    | some row =>
      match row.get? i with
      | none => none
      | some v =>
        match rowEntries Y i hs (idx + 1) with
        | none => none
        | some rest => some ((h, v) :: rest)

/-- The data-conversion loop (`server.py` lines 266-271): one row per
time index, stopping at the first conversion failure — the exception is
caught and logged, leaving the rows accumulated so far. -/
def collectRows (t : List ℚ) (headers : List String)
    (Y : List (List ℚ)) : List ℕ → List (List (String × ℚ))
  | [] => []
  | i :: rest =>
    match t.get? i with
    | none => []
    | some tv =>
      match rowEntries Y i headers 0 with
      | none => []
      | some entries =>
        (("t", tv) :: entries) :: collectRows t headers Y rest

/-- `data_points` for a completed solver run when `return_data` is set. -/
def buildData (t : List ℚ) (headers : List String)
    (Y : List (List ℚ)) : List (List (String × ℚ)) :=
  collectRows t headers Y (List.range t.length)

/-- The full tool environment: deterministic math oracles, the global
random generator, and the outcomes of the two artifact writers
(`write_csv` / `write_plot`), each either a written path or a raised
exception. -/
structure Env where
  math : MathEnv
  rand : RandEnv
  csvWrite : Except String String
  plotWrite : Except String String

/-- The artifact block (`server.py` lines 242-259): attempted only when
`save_artifacts` is set; any write failure is caught and logged, and
since the descriptors are assigned only after both writes succeed, the
artifact list stays empty whenever either writer raises. -/
def artifactList (c p : Except String String) (sa : Bool) : List Artifact :=
  if sa then
    match c, p with
    | .ok cp, .ok pp => [⟨"csv", cp⟩, ⟨"plot", pp⟩]
    | _, _ => []     -- any write failure is caught: both omitted
  else []

/-- The result-shaping tail of `simulate_model` (`server.py` lines
239-297), applied once the solver has completed.  `headers` is
`list(spec.initial_conditions.keys())` (line 239), so both the column
list and the per-row labels follow the caller's key order; the metrics
comprehension `{k: float(v) for k, v in metrics.items() if k != "summary"}`
is the only step whose exception is not caught, so its failure escapes
the tool as `.error`.  (The source computes artifacts and data rows
before the comprehension; these are pure values here, so evaluation
order is unobservable.) -/
def shapeResult (env : Env) (spec : SimulateModelInput) (t : List ℚ)
    (Y : List (List ℚ)) (mets : Metrics) : Except String ToolResult :=
  match numericMetrics mets with
  | .error e => .error e   -- the TypeError escapes simulate_model
  | .ok nm =>
    .ok (.success
      { status := "success"
        message := "Simulation completed"
        summary := some (summaryOf mets)
        artifacts := artifactList env.csvWrite env.plotWrite spec.save_artifacts
        metrics := nm
        columns := some ("t" :: spec.initial_conditions.map Prod.fst)
        data :=
          if spec.return_data then
            some (buildData t (spec.initial_conditions.map Prod.fst) Y)
          else none })

/-- Outcome handling of the solver call (`server.py` lines 214-237 and
onward): a solver exception is caught and returned as a structured
error result (every ODE solver raises `RuntimeError(sol.message)`); a
completed run proceeds to result shaping. -/
def dispatchResult (env : Env) (spec : SimulateModelInput)
    (res : Except String SolverOut) : Except String ToolResult :=
  match res with
  | .error e => .ok (.errorResult ("Solver error: RuntimeError: " ++ e))
  | .ok (t, Y, mets) => shapeResult env spec t Y mets

/-- The `simulate_model` tool (`server.py` lines 163-297), minus
logging, the absent optional JSON-schema pass, and the run-id
generation (folded into the artifact-writer oracles).  The outer
`Except` layer models exceptions escaping the tool function:
`.ok` is a returned `CallToolResult`, `.error` an uncaught exception. -/
def simulate_model (env : Env) (spec : SimulateModelInput) :
    Except String ToolResult :=
  match SOLVERS env.math env.rand spec.domain spec.model_type with
  | none => .ok (.errorResult (noSolverMsg spec.domain spec.model_type))
  | some solver =>
    dispatchResult env spec
      (solver spec.parameters spec.initial_conditions
        (spec.time_span.start, spec.time_span.tEnd)
        (actualSteps spec.time_span) spec.method)

/-! ## Specification-side definitions and analysis helpers -/

/-- State-variable names in ModelSpec order.  This is the spec-side
comparison list (spec §4.1 table; it matches the order in which each
solver assembles its initial state vector and the docstrings of
`models/*.py`). -/
def stateVarNames : ModelType → List String
  | .SIR => ["S", "I", "R"]
  | .LotkaVolterra => ["x", "y"]
  | .Logistic => ["P"]
  | .Projectile => ["x", "y", "vx", "vy"]
  | .MonteCarlo => ["S"]

/-- Replace the artifact list of a successful response by `[]`;
other outcomes are unchanged.  Used to compare a run whose artifact
writers fail with the same run whose writers succeed. -/
def stripArtifacts : Except String ToolResult → Except String ToolResult
  | .ok (.success out) => .ok (.success { out with artifacts := [] })
  | r => r

/-- The column list of a successful tool response, `none` otherwise. -/
def columnsOf : Except String ToolResult → Option (List String)
  | .ok (.success out) => out.columns
  | _ => none

/-- The data rows of a successful tool response, `none` otherwise. -/
def dataOf : Except String ToolResult → Option (List (List (String × ℚ)))
  | .ok (.success out) => out.data
  | _ => none

/-- Time grid of a completed solver run. -/
def okT : Except String SolverOut → List ℚ
  | .ok (t, _, _) => t
  | .error _ => []

/-- State matrix of a completed solver run. -/
def okY : Except String SolverOut → List (List ℚ)
  | .ok (_, Y, _) => Y
  | .error _ => []

/-- Metrics bundle of a completed solver run. -/
def okMets : Except String SolverOut → Metrics
  | .ok (_, _, m) => m
  | .error _ => []

/-- A landing transition of the projectile trajectory at index `i`:
`i ≥ 1`, `i` in range, height dropping below the initial height at `i`
having been at or above it at `i-1`. -/
def landingTransition (yVals : List ℚ) (h0 : ℚ) (i : ℕ) : Prop :=
  1 ≤ i ∧ i < yVals.length ∧ landingCond yVals h0 i

/-! ## Concrete instantiations used by witnesses and counterexamples -/

/-- Concrete deterministic math oracles: the ODE oracle returns a fixed
3-row state matrix (enough for an SIR run). -/
def meW : MathEnv :=
  { ode := fun _ _ _ _ _ => .ok [[1, 2], [3, 4], [5, 6]]
    expQ := fun x => 1 + x
    cosQ := fun x => x
    sinQ := fun x => x + 1
    sqrtQ := fun _ => 0
    piQ := 3 }

/-- Concrete random streams (all draws zero). -/
def reW : RandEnv := { seeded := fun _ _ => 0, ambient := fun _ => 0 }

/-- Concrete random streams differing from `reW` only in the ambient
(unseeded) stream. -/
def reW2 : RandEnv := { seeded := fun _ _ => 0, ambient := fun _ => 1 }

/-- Concrete environment with succeeding artifact writers. -/
def envW : Env :=
  { math := meW, rand := reW, csvWrite := .ok "run.csv", plotWrite := .ok "run.png" }

/-- Same as `envW` but the ambient random stream differs. -/
def envW2 : Env :=
  { math := meW, rand := reW2, csvWrite := .ok "run.csv", plotWrite := .ok "run.png" }

/-- Same as `envW` but the CSV writer raises. -/
def envWFail : Env :=
  { math := meW, rand := reW, csvWrite := .error "disk full", plotWrite := .ok "run.png" }

/-- An SIR request whose `initial_conditions` keys are supplied in the
order I, S, R — not the ModelSpec order S, I, R. -/
def specC2 : SimulateModelInput :=
  { domain := .epidemiology, model_type := .SIR
    parameters := [("beta", 3/10), ("gamma", 1/10)]
    initial_conditions := [("I", 1/100), ("S", 99/100), ("R", 0)]
    time_span := { start := 0, tEnd := 1, steps := 2, preview_mode := false }
    method := .RK45, return_data := true, save_artifacts := false }

/-- The response produced for `specC2` under `envW`. -/
def outC2 : SimulateModelOutput :=
  { status := "success"
    message := "Simulation completed"
    summary := some (sirSummary 4 1)
    artifacts := []
    metrics := [("I_peak", 4), ("t_peak", 1)]
    columns := some ["t", "I", "S", "R"]
    data := some [[("t", 0), ("I", 1), ("S", 3), ("R", 5)],
                  [("t", 1), ("I", 2), ("S", 4), ("R", 6)]] }

/-- A MonteCarlo request (seeded, zero drift and volatility). -/
def specC1 : SimulateModelInput :=
  { domain := .finance, model_type := .MonteCarlo
    parameters := [("mu", 0), ("sigma", 0), ("n_paths", 2), ("seed", 7)]
    initial_conditions := [("S", 100)]
    time_span := { start := 0, tEnd := 1, steps := 2, preview_mode := false }
    method := .RK45, return_data := false, save_artifacts := false }

/-- A request for an unregistered `(domain, model)` pair. -/
def specC6 : SimulateModelInput :=
  { domain := .custom, model_type := .SIR
    parameters := [], initial_conditions := [("S", 1)]
    time_span := { start := 0, tEnd := 1, steps := 2, preview_mode := false }
    method := .RK45, return_data := true, save_artifacts := false }

/-- A MonteCarlo request in preview mode asking for 1000 steps. -/
def specC3 : SimulateModelInput :=
  { domain := .finance, model_type := .MonteCarlo
    parameters := [("mu", 0), ("sigma", 0), ("n_paths", 2), ("seed", 7)]
    initial_conditions := [("S", 100)]
    time_span := { start := 0, tEnd := 1, steps := 1000, preview_mode := true }
    method := .RK45, return_data := false, save_artifacts := false }

/-- An SIR request asking for artifacts to be saved. -/
def specC9 : SimulateModelInput :=
  { domain := .epidemiology, model_type := .SIR
    parameters := [("beta", 3/10), ("gamma", 1/10)]
    initial_conditions := [("S", 99/100), ("I", 1/100), ("R", 0)]
    time_span := { start := 0, tEnd := 1, steps := 2, preview_mode := false }
    method := .RK45, return_data := true, save_artifacts := true }

/-- The Monte Carlo parameter dict of the spec's zero-volatility test
property: seed 42, mu 0, sigma 0, 10 paths. -/
def mcZeroParams : PyDict :=
  [("seed", 42), ("mu", 0), ("sigma", 0), ("n_paths", 10)]

/-- Initial conditions `S0 = 100` for the same test property. -/
def mcZeroY0 : PyDict := [("S", 100)]

/-- Concrete projectile request objects for the landing-metric witness:
the ODE oracle returns a 4-row matrix whose height row descends through
the initial height. -/
def meProj : MathEnv :=
  { ode := fun _ _ _ _ _ => .ok [[0, 1, 2], [0, 5, -1], [1, 1, 1], [0, 0, 0]]
    expQ := fun x => x
    cosQ := fun x => x
    sinQ := fun x => x
    sqrtQ := fun x => x
    piQ := 3 }

/-! ## Theorems -/

/-- The registry lookup misses exactly on the pairs outside
`registeredPairs`. -/
theorem SOLVERS_isNone_iff (me : MathEnv) (re : RandEnv) (d : Domain)
    (m : ModelType) :
    SOLVERS me re d m = none ↔ (d, m) ∉ registeredPairs := by
  cases d <;> cases m <;> simp [SOLVERS, registeredPairs]

/-- C10: the Monte Carlo solver ignores the integration method
selector: two calls differing only in `method` return identical time
grids, state matrices and metrics. -/
theorem monte_carlo_method_ignored (me : MathEnv) (re : RandEnv)
    (parameters y0 : PyDict) (tspan : ℚ × ℚ) (steps : ℕ)
    (m1 m2 : Method) :
    simulate_monte_carlo me re parameters y0 tspan steps m1 =
      simulate_monte_carlo me re parameters y0 tspan steps m2 := rfl

/-- C1 (code bug): on a completed MonteCarlo run the metrics
comprehension filters out only `summary`; the nested `percentiles`
entry reaches `float(...)` and the resulting `TypeError` escapes
`simulate_model` instead of a structured success response being
returned.  Evaluated here at a concrete finance/MonteCarlo request. -/
theorem mc_percentiles_typeerror_escapes :
    simulate_model envW specC1 =
      .error "TypeError: float() argument must be a string or a number, not dict" := rfl

/-- C6: a `(domain, model)` pair absent from the registry yields a
structured error result naming the offending pair — never an exception
escaping the tool (the result is an `.ok` error payload, produced
before any solver is invoked). -/
theorem registry_miss_structured_error (env : Env)
    (spec : SimulateModelInput)
    (h : (spec.domain, spec.model_type) ∉ registeredPairs) :
    simulate_model env spec =
      .ok (.errorResult (noSolverMsg spec.domain spec.model_type)) := by
  unfold simulate_model
  rw [(SOLVERS_isNone_iff env.math env.rand spec.domain spec.model_type).mpr h]

/-- Witness for C6 at `(custom, SIR)`. -/
theorem registry_miss_structured_error_witness :
    (Domain.custom, ModelType.SIR) ∉ registeredPairs ∧
    simulate_model envW specC6 =
      .ok (.errorResult (noSolverMsg .custom .SIR)) :=
  ⟨by decide, registry_miss_structured_error envW specC6 (by decide)⟩

/-- C4: projectile initial velocity policy — a supplied nonzero `vx`
(resp. `vy`) is used verbatim as the third (resp. fourth) entry of the
initial state vector; an absent or exactly-zero component is derived as
`v0*cos(angle*pi/180)` (resp. `v0*sin(angle*pi/180)`). -/
theorem projectile_velocity_derivation_policy (me : MathEnv)
    (parameters y0 : PyDict) :
    (∀ v, pyGet y0 "vx" = some v → v ≠ 0 →
        (projectileY0 me parameters y0).getD 2 0 = v)
    ∧ ((pyGet y0 "vx" = none ∨ pyGet y0 "vx" = some 0) →
        (projectileY0 me parameters y0).getD 2 0 =
          pyGetD parameters "v0" 20 *
            me.cosQ (pyGetD parameters "angle" 45 * me.piQ / 180))
    ∧ (∀ v, pyGet y0 "vy" = some v → v ≠ 0 →
        (projectileY0 me parameters y0).getD 3 0 = v)
    ∧ ((pyGet y0 "vy" = none ∨ pyGet y0 "vy" = some 0) →
        (projectileY0 me parameters y0).getD 3 0 =
          pyGetD parameters "v0" 20 *
            me.sinQ (pyGetD parameters "angle" 45 * me.piQ / 180)) := by
  refine ⟨?_, ?_, ?_, ?_⟩
  · intro v hv hnz
    simp [projectileY0, hv, hnz]
  · rintro (h | h) <;> simp [projectileY0, h]
  · intro v hv hnz
    simp [projectileY0, hv, hnz]
  · rintro (h | h) <;> simp [projectileY0, h]

/-- Witness for C4: `vx` supplied nonzero is kept, `vy` supplied as
exactly zero is derived. -/
theorem projectile_velocity_derivation_policy_witness :
    (projectileY0 meW [] [("vx", 5), ("vy", 0)]).getD 2 0 = 5
    ∧ (projectileY0 meW [] [("vx", 5), ("vy", 0)]).getD 3 0 =
        20 * meW.sinQ (45 * meW.piQ / 180) := by
  have h := projectile_velocity_derivation_policy meW [] [("vx", 5), ("vy", 0)]
  exact ⟨h.1 5 (by decide) (by norm_num),
         h.2.2.2 (Or.inr (by decide))⟩

/-- Result shaping reads the environment only through the two artifact
writers. -/
theorem shapeResult_congr (e1 e2 : Env)
    (hcsv : e1.csvWrite = e2.csvWrite) (hplot : e1.plotWrite = e2.plotWrite)
    (spec : SimulateModelInput) (t : List ℚ) (Y : List (List ℚ))
    (mets : Metrics) :
    shapeResult e1 spec t Y mets = shapeResult e2 spec t Y mets := by
  unfold shapeResult
  rw [hcsv, hplot]

/-- Solver-outcome handling reads the environment only through the two
artifact writers. -/
theorem dispatchResult_congr (e1 e2 : Env)
    (hcsv : e1.csvWrite = e2.csvWrite) (hplot : e1.plotWrite = e2.plotWrite)
    (spec : SimulateModelInput) (res : Except String SolverOut) :
    dispatchResult e1 spec res = dispatchResult e2 spec res := by
  cases res with
  | error e => rfl
  | ok out =>
    obtain ⟨t, Y, mets⟩ := out
    exact shapeResult_congr e1 e2 hcsv hplot spec t Y mets

/-- C7: replay determinism.  Two executions of the same request in two
environments that share the deterministic math oracles and artifact
writers — but may hold the global random generator in different states
(different ambient stream, different streams for other seeds) — return
identical results, provided that for a MonteCarlo request a `seed`
parameter is supplied and the two environments agree on the stream that
seed selects.  ODE-family models never consult the random state at all,
so for them the hypothesis on seeds is vacuous. -/
theorem identical_request_replay_deterministic
    (e1 e2 : Env) (spec : SimulateModelInput)
    (hm : e1.math = e2.math)
    (hcsv : e1.csvWrite = e2.csvWrite)
    (hplot : e1.plotWrite = e2.plotWrite)
    (hseed : spec.model_type = .MonteCarlo →
      ∃ s, pyGet spec.parameters "seed" = some s ∧
        e1.rand.seeded (pyInt s) = e2.rand.seeded (pyInt s)) :
    simulate_model e1 spec = simulate_model e2 spec := by
  obtain ⟨d, mt, params, y0v, ts, meth, rd, sa⟩ := spec
  unfold simulate_model
  rw [hm]
  cases d <;> cases mt
  case epidemiology.SIR => exact dispatchResult_congr e1 e2 hcsv hplot _ _
  case epidemiology.LotkaVolterra =>
    exact dispatchResult_congr e1 e2 hcsv hplot _ _
  case epidemiology.Logistic => exact dispatchResult_congr e1 e2 hcsv hplot _ _
  case physics.Projectile => exact dispatchResult_congr e1 e2 hcsv hplot _ _
  case finance.MonteCarlo =>
    obtain ⟨s, hs, hstream⟩ := hseed rfl
    have hmc : simulate_monte_carlo e2.math e1.rand params y0v
          (ts.start, ts.tEnd) (actualSteps ts) meth
        = simulate_monte_carlo e2.math e2.rand params y0v
          (ts.start, ts.tEnd) (actualSteps ts) meth := by
      unfold simulate_monte_carlo
      simp only [hs, hstream]
    show dispatchResult e1 _
        (simulate_monte_carlo e2.math e1.rand params y0v
          (ts.start, ts.tEnd) (actualSteps ts) meth)
      = dispatchResult e2 _
        (simulate_monte_carlo e2.math e2.rand params y0v
          (ts.start, ts.tEnd) (actualSteps ts) meth)
    rw [hmc]
    exact dispatchResult_congr e1 e2 hcsv hplot _ _
  all_goals rfl

/-- Witness for C7: the same seeded MonteCarlo request in two
environments with different ambient random streams. -/
theorem identical_request_replay_deterministic_witness :
    simulate_model envW specC1 = simulate_model envW2 specC1 := by
  refine identical_request_replay_deterministic envW envW2 specC1 rfl rfl rfl ?_
  intro _
  exact ⟨7, by decide, rfl⟩

/-- The artifact list collapses to `[]` whenever one of the writers
raised. -/
theorem artifacts_of_fail (c p : Except String String) (sa : Bool)
    (hfail : (∃ m, c = .error m) ∨ (∃ m, p = .error m)) :
    artifactList c p sa = [] := by
  unfold artifactList
  cases sa
  · rfl
  · rcases hfail with ⟨m, h⟩ | ⟨m, h⟩
    · subst h
      rfl
    · subst h
      cases c <;> rfl

/-- Result shaping with a failing writer equals the result of the same
run with any other writers, with the artifact list emptied. -/
theorem shapeResult_strip (e1 e2 : Env) (spec : SimulateModelInput)
    (t : List ℚ) (Y : List (List ℚ)) (mets : Metrics)
    (hfail : (∃ msg, e1.csvWrite = .error msg) ∨
             (∃ msg, e1.plotWrite = .error msg)) :
    shapeResult e1 spec t Y mets =
      stripArtifacts (shapeResult e2 spec t Y mets) := by
  unfold shapeResult
  cases numericMetrics mets with
  | error e => rfl
  | ok nm =>
    simp only [stripArtifacts]
    rw [artifacts_of_fail e1.csvWrite e1.plotWrite spec.save_artifacts hfail]

/-- Solver-outcome handling with a failing writer equals that of the
same outcome with any other writers, with the artifact list emptied. -/
theorem dispatchResult_strip (e1 e2 : Env) (spec : SimulateModelInput)
    (hfail : (∃ msg, e1.csvWrite = .error msg) ∨
             (∃ msg, e1.plotWrite = .error msg))
    (res : Except String SolverOut) :
    dispatchResult e1 spec res = stripArtifacts (dispatchResult e2 spec res) := by
  cases res with
  | error e => rfl
  | ok out =>
    obtain ⟨t, Y, mets⟩ := out
    exact shapeResult_strip e1 e2 spec t Y mets hfail

/-- C9: a failure while writing the CSV or plot artifact never turns
the overall result into an error.  A run in an environment `e1` with a
failing writer returns exactly what the same run with working writers
(`e2`) returns, except that the artifact descriptors are omitted: same
status, same message/summary, same metrics, columns and data rows. -/
theorem artifact_failure_never_fails_request (e1 e2 : Env)
    (spec : SimulateModelInput)
    (hm : e1.math = e2.math) (hr : e1.rand = e2.rand)
    (hfail : (∃ msg, e1.csvWrite = .error msg) ∨
             (∃ msg, e1.plotWrite = .error msg)) :
    simulate_model e1 spec = stripArtifacts (simulate_model e2 spec) := by
  unfold simulate_model
  rw [hm, hr]
  cases SOLVERS e2.math e2.rand spec.domain spec.model_type with
  | none => rfl
  | some solver => exact dispatchResult_strip e1 e2 spec hfail _

/-- Witness for C9: an SIR run with `save_artifacts` whose CSV writer
raises returns the success response of the working-writer run with the
artifact descriptors dropped. -/
theorem artifact_failure_never_fails_request_witness :
    simulate_model envWFail specC9 = stripArtifacts (simulate_model envW specC9) :=
  artifact_failure_never_fails_request envWFail envW specC9 rfl rfl
    (Or.inl ⟨"disk full", rfl⟩)

/-- The entries built for one data row carry exactly the header names,
in header order. -/
theorem rowEntries_keys (Y : List (List ℚ)) (i : ℕ) :
    ∀ (hs : List String) (idx : ℕ) (es : List (String × ℚ)),
      rowEntries Y i hs idx = some es → es.map Prod.fst = hs := by
  intro hs
  induction hs with
  | nil =>
    intro idx es h
    unfold rowEntries at h
    cases h
    rfl
  | cons hd tl ih =>
    intro idx es h
    unfold rowEntries at h
    cases hY : Y.get? idx with
    | none => simp only [hY] at h; cases h
    | some row =>
      simp only [hY] at h
      cases hv : row.get? i with
      | none => simp only [hv] at h; cases h
      | some v =>
        simp only [hv] at h
        cases hre : rowEntries Y i tl (idx + 1) with
        | none => simp only [hre] at h; cases h
        | some rest =>
          simp only [hre, Option.some.injEq] at h
          subst h
          simp [ih (idx + 1) rest hre]

/-- Every row collected by the data-conversion loop is labelled
`"t"` followed by the headers. -/
theorem collectRows_keys (t : List ℚ) (hs : List String)
    (Y : List (List ℚ)) :
    ∀ (l : List ℕ) (row : List (String × ℚ)),
      row ∈ collectRows t hs Y l → row.map Prod.fst = "t" :: hs := by
  intro l
  induction l with
  | nil => intro row hr; cases hr
  | cons j rest ih =>
    intro row hr
    unfold collectRows at hr
    cases ht : t.get? j with
    | none => simp only [ht] at hr; cases hr
    | some tv =>
      simp only [ht] at hr
      cases hre : rowEntries Y j hs 0 with
      | none => simp only [hre] at hr; cases hr
      | some es =>
        simp only [hre] at hr
        rcases List.mem_cons.mp hr with h | h
        · subst h
          simp [rowEntries_keys Y j hs 0 es hre]
        · exact ih row h

/-- A successful shaping outcome exposes the caller-key-ordered column
list and row labels. -/
theorem shapeResult_success (env : Env) (spec : SimulateModelInput)
    (t : List ℚ) (Y : List (List ℚ)) (mets : Metrics)
    (out : SimulateModelOutput)
    (h : shapeResult env spec t Y mets = .ok (.success out)) :
    out.columns = some ("t" :: spec.initial_conditions.map Prod.fst)
    ∧ ∀ rows, out.data = some rows → ∀ row ∈ rows,
        row.map Prod.fst = "t" :: spec.initial_conditions.map Prod.fst := by
  unfold shapeResult at h
  cases hnm : numericMetrics mets with
  | error e => rw [hnm] at h; cases h
  | ok nm =>
    rw [hnm] at h
    cases h
    refine ⟨rfl, ?_⟩
    intro rows hrows row hrow
    by_cases hrd : spec.return_data
    · simp only [hrd, if_true] at hrows
      cases hrows
      exact collectRows_keys t _ Y _ row hrow
    · simp only [hrd, if_false] at hrows
      cases hrows

/-- Lift of `shapeResult_success` through solver-outcome handling. -/
theorem dispatchResult_success (env : Env) (spec : SimulateModelInput)
    (res : Except String SolverOut) (out : SimulateModelOutput)
    (h : dispatchResult env spec res = .ok (.success out)) :
    out.columns = some ("t" :: spec.initial_conditions.map Prod.fst)
    ∧ ∀ rows, out.data = some rows → ∀ row ∈ rows,
        row.map Prod.fst = "t" :: spec.initial_conditions.map Prod.fst := by
  cases res with
  | error e => cases h
  | ok o =>
    obtain ⟨t, Y, mets⟩ := o
    exact shapeResult_success env spec t Y mets out h

/-- C2 (amended): for every successful simulation, the column header
list is `["t"]` followed by the keys of the caller's
`initial_conditions` mapping in the order the caller supplied them (not
ModelSpec order), and every returned data row is labelled with these
same keys in the same order — while the state-matrix rows it draws
values from are in ModelSpec order, so the pairing is by position, not
by name. -/
theorem response_columns_follow_caller_key_order (env : Env)
    (spec : SimulateModelInput) (out : SimulateModelOutput)
    (h : simulate_model env spec = .ok (.success out)) :
    out.columns = some ("t" :: spec.initial_conditions.map Prod.fst)
    ∧ ∀ rows, out.data = some rows → ∀ row ∈ rows,
        row.map Prod.fst = "t" :: spec.initial_conditions.map Prod.fst := by
  unfold simulate_model at h
  cases hS : SOLVERS env.math env.rand spec.domain spec.model_type with
  | none => rw [hS] at h; cases h
  | some solver =>
    rw [hS] at h
    exact dispatchResult_success env spec _ out h

/-- Witness for the amended C2 at the concrete run `specC2`. -/
theorem response_columns_follow_caller_key_order_witness :
    simulate_model envW specC2 = .ok (.success outC2)
    ∧ outC2.columns = some ("t" :: specC2.initial_conditions.map Prod.fst)
    ∧ ∀ rows, outC2.data = some rows → ∀ row ∈ rows,
        row.map Prod.fst = "t" :: specC2.initial_conditions.map Prod.fst := by
  have h : simulate_model envW specC2 = .ok (.success outC2) := by
    norm_num +decide [simulate_model, SOLVERS, dispatchResult, simulate_sir,
      shapeResult, numericMetrics, pyFloat, summaryOf, mGet, buildData,
      collectRows, rowEntries, artifactList, actualSteps, pyGetD, pyGet,
      listMax, argmaxIdx, argmaxAux, linspace, envW, meW, reW, specC2,
      outC2, sirSummary, List.range_succ]
  exact ⟨h, response_columns_follow_caller_key_order envW specC2 outC2 h⟩

/-- C2 counterexample: for the SIR request `specC2`, whose
`initial_conditions` keys arrive in the order I, S, R, the successful
response's columns are `["t","I","S","R"]` — not `["t"]` followed by
the ModelSpec order S, I, R — and the data rows pair the key `"I"` with
row 0 of the state matrix, which is the S row (the solver integrates
`[S0, I0, R0]`, and the oracle returned rows `[1,2]`, `[3,4]`, `[5,6]`
for S, I, R respectively). -/
theorem response_columns_not_modelspec_order :
    columnsOf (simulate_model envW specC2) = some ["t", "I", "S", "R"]
    ∧ "t" :: stateVarNames ModelType.SIR = ["t", "S", "I", "R"]
    ∧ (["t", "I", "S", "R"] : List String) ≠ ["t", "S", "I", "R"]
    ∧ dataOf (simulate_model envW specC2) =
        some [[("t", 0), ("I", 1), ("S", 3), ("R", 5)],
              [("t", 1), ("I", 2), ("S", 4), ("R", 6)]] := by
  refine ⟨rfl, rfl, by decide, ?_⟩
  norm_num +decide [dataOf, simulate_model, SOLVERS, dispatchResult,
    simulate_sir, shapeResult, numericMetrics, pyFloat, summaryOf, mGet,
    buildData, collectRows, rowEntries, artifactList, actualSteps, pyGetD,
    pyGet, listMax, argmaxIdx, argmaxAux, linspace, envW, meW, reW, specC2,
    List.range_succ]

/-- `np.linspace` produces exactly `n` points. -/
theorem linspace_length (a b : ℚ) (n : ℕ) : (linspace a b n).length = n := by
  simp [linspace]

/-- The first linspace point is the span start. -/
theorem linspace_first (a b : ℚ) (n : ℕ) (hn : 0 < n) :
    (linspace a b n).getD 0 0 = a := by
  unfold linspace
  rw [List.getD_eq_getElem?_getD, List.getElem?_map, List.getElem?_range hn]
  simp

/-- The last linspace point is the span end (for grids of two or more
points, where the `i*(b-a)/(n-1)` formula reaches `b` exactly). -/
theorem linspace_last (a b : ℚ) (n : ℕ) (hn : 2 ≤ n) :
    (linspace a b n).getLast? = some b := by
  rw [List.getLast?_eq_getElem?, linspace_length]
  unfold linspace
  rw [List.getElem?_map, List.getElem?_range (by omega : n - 1 < n)]
  simp only [Option.map_some']
  congr 1
  have hcast : ((n - 1 : ℕ) : ℚ) = (n : ℚ) - 1 := by
    rw [Nat.cast_sub (by omega : 1 ≤ n)]
    norm_num
  rw [hcast]
  have hne : (n : ℚ) - 1 ≠ 0 := by
    have h2 : (2 : ℚ) ≤ (n : ℚ) := by exact_mod_cast hn
    linarith
  rw [mul_div_assoc, div_self hne, mul_one]
  ring

/-- On success the SIR solver returns exactly the evaluation grid. -/
theorem simulate_sir_t (me : MathEnv) (params y0 : PyDict) (ts : ℚ × ℚ)
    (steps : ℕ) (meth : Method) (t : List ℚ) (Y : List (List ℚ))
    (mets : Metrics)
    (h : simulate_sir me params y0 ts steps meth = .ok (t, Y, mets)) :
    t = linspace ts.1 ts.2 steps := by
  simp only [simulate_sir] at h
  split at h
  · cases h
  · injection h with h2
    cases h2
    rfl

/-- On success the Lotka-Volterra solver returns exactly the grid. -/
theorem simulate_lotka_volterra_t (me : MathEnv) (params y0 : PyDict)
    (ts : ℚ × ℚ) (steps : ℕ) (meth : Method) (t : List ℚ)
    (Y : List (List ℚ)) (mets : Metrics)
    (h : simulate_lotka_volterra me params y0 ts steps meth = .ok (t, Y, mets)) :
    t = linspace ts.1 ts.2 steps := by
  simp only [simulate_lotka_volterra] at h
  split at h
  · cases h
  · injection h with h2
    cases h2
    rfl

/-- On success the logistic solver returns exactly the grid. -/
theorem simulate_logistic_t (me : MathEnv) (params y0 : PyDict)
    (ts : ℚ × ℚ) (steps : ℕ) (meth : Method) (t : List ℚ)
    (Y : List (List ℚ)) (mets : Metrics)
    (h : simulate_logistic me params y0 ts steps meth = .ok (t, Y, mets)) :
    t = linspace ts.1 ts.2 steps := by
  simp only [simulate_logistic] at h
  split at h
  · cases h
  · injection h with h2
    cases h2
    rfl

/-- On success the projectile solver returns exactly the grid. -/
theorem simulate_projectile_t (me : MathEnv) (params y0 : PyDict)
    (ts : ℚ × ℚ) (steps : ℕ) (meth : Method) (t : List ℚ)
    (Y : List (List ℚ)) (mets : Metrics)
    (h : simulate_projectile me params y0 ts steps meth = .ok (t, Y, mets)) :
    t = linspace ts.1 ts.2 steps := by
  simp only [simulate_projectile] at h
  split at h
  · cases h
  · injection h with h2
    cases h2
    rfl

/-- The Monte Carlo solver returns exactly the evaluation grid. -/
theorem simulate_monte_carlo_t (me : MathEnv) (re : RandEnv)
    (params y0 : PyDict) (ts : ℚ × ℚ) (steps : ℕ) (meth : Method)
    (t : List ℚ) (Y : List (List ℚ)) (mets : Metrics)
    (h : simulate_monte_carlo me re params y0 ts steps meth = .ok (t, Y, mets)) :
    t = linspace ts.1 ts.2 steps := by
  simp only [simulate_monte_carlo] at h
  injection h with h2
  cases h2
  rfl

/-- C3: the preview step policy and grid bounds.  `actual_steps` is
`min(steps, 100)` exactly when preview mode is set (unchanged
otherwise); every registered solver, on success, returns the
`linspace`-grid over the requested span with exactly `actual_steps`
points — so the returned time point count equals the effective step
count, its first point is the span start and its last point the span
end; and preview mode with 1000 requested steps yields exactly 100
points. -/
theorem preview_step_cap_and_grid_bounds (env : Env)
    (spec : SimulateModelInput) (h2 : 2 ≤ spec.time_span.steps) :
    (spec.time_span.preview_mode = true →
        actualSteps spec.time_span = min spec.time_span.steps 100)
    ∧ (spec.time_span.preview_mode = false →
        actualSteps spec.time_span = spec.time_span.steps)
    ∧ (∀ solver,
        SOLVERS env.math env.rand spec.domain spec.model_type = some solver →
        ∀ t Y mets,
          solver spec.parameters spec.initial_conditions
              (spec.time_span.start, spec.time_span.tEnd)
              (actualSteps spec.time_span) spec.method = .ok (t, Y, mets) →
          t = linspace spec.time_span.start spec.time_span.tEnd
                (actualSteps spec.time_span))
    ∧ (linspace spec.time_span.start spec.time_span.tEnd
        (actualSteps spec.time_span)).length = actualSteps spec.time_span
    ∧ (linspace spec.time_span.start spec.time_span.tEnd
        (actualSteps spec.time_span)).getD 0 0 = spec.time_span.start
    ∧ (linspace spec.time_span.start spec.time_span.tEnd
        (actualSteps spec.time_span)).getLast? = some spec.time_span.tEnd
    ∧ (spec.time_span.preview_mode = true → spec.time_span.steps = 1000 →
        actualSteps spec.time_span = 100) := by
  have hsteps2 : 2 ≤ actualSteps spec.time_span := by
    unfold actualSteps
    cases hp : spec.time_span.preview_mode
    · simpa using h2
    · simp only [if_true]
      exact le_min h2 (by norm_num)
  refine ⟨?_, ?_, ?_, linspace_length _ _ _,
    linspace_first _ _ _ (by omega), linspace_last _ _ _ hsteps2, ?_⟩
  · intro hp; simp [actualSteps, hp]
  · intro hp; simp [actualSteps, hp]
  · intro solver hsol t Y mets hres
    obtain ⟨d, mt, params, y0v, ts, meth, rd, sa⟩ := spec
    cases d <;> cases mt <;> simp only [SOLVERS] at hsol <;> cases hsol <;>
      first
      | exact simulate_sir_t _ _ _ _ _ _ _ _ _ hres
      | exact simulate_lotka_volterra_t _ _ _ _ _ _ _ _ _ hres
      | exact simulate_logistic_t _ _ _ _ _ _ _ _ _ hres
      | exact simulate_projectile_t _ _ _ _ _ _ _ _ _ hres
      | exact simulate_monte_carlo_t _ _ _ _ _ _ _ _ _ _ hres
  · intro hp h1000; simp [actualSteps, hp, h1000]

/-- Witness for C3 at the preview-mode MonteCarlo request asking for
1000 steps (`specC3`). -/
theorem preview_step_cap_and_grid_bounds_witness :
    actualSteps specC3.time_span = 100
    ∧ (linspace specC3.time_span.start specC3.time_span.tEnd
        (actualSteps specC3.time_span)).length = 100
    ∧ (linspace specC3.time_span.start specC3.time_span.tEnd
        (actualSteps specC3.time_span)).getD 0 0 = specC3.time_span.start
    ∧ (linspace specC3.time_span.start specC3.time_span.tEnd
        (actualSteps specC3.time_span)).getLast? = some specC3.time_span.tEnd := by
  have h := preview_step_cap_and_grid_bounds envW specC3 (by norm_num [specC3])
  refine ⟨h.2.2.2.2.2.2 rfl rfl, ?_, h.2.2.2.2.1, h.2.2.2.2.2.1⟩
  rw [h.2.2.2.1, h.2.2.2.2.2.2 rfl rfl]

/-- With zero drift and zero volatility the per-step factor is
`exp(0) = 1`, so every path stays at the initial price forever. -/
theorem mcPath_zero_drift {expQ : ℚ → ℚ} (hexp : expQ 0 = 1)
    (stream : ℕ → ℚ) (sqrtDt dt s0 : ℚ) (n p : ℕ) :
    ∀ i, mcPath expQ stream sqrtDt 0 0 dt s0 n p i = s0 := by
  intro i
  induction i with
  | zero => rfl
  | succ i ih =>
    unfold mcPath
    rw [ih]
    have hz : (0 - 1/2 * (0:ℚ)^2) * dt + 0 * (sqrtDt * stream (i * n + p)) = 0 := by
      ring
    rw [hz, hexp, mul_one]

/-- The mean of a constant sample is that constant. -/
theorem listMean_replicate (n : ℕ) (x : ℚ) (hn : n ≠ 0) :
    listMean (List.replicate n x) = x := by
  unfold listMean
  rw [List.sum_replicate, List.length_replicate, nsmul_eq_mul]
  exact mul_div_cancel_left₀ x (by exact_mod_cast hn)

/-- C5: Monte Carlo with seed 42, mu 0, sigma 0, 10 paths and S0 = 100
(for any exp oracle with `exp 0 = 1`, as IEEE exp satisfies exactly):
the returned state matrix is the mean path pinned at exactly 100 for
every one of the `steps` time points, and the `prob_profit_pct` metric
is exactly 0, since no path finishes strictly above the initial
price. -/
theorem monte_carlo_zero_vol_constant (me : MathEnv) (re : RandEnv)
    (ts : ℚ × ℚ) (steps : ℕ) (meth : Method)
    (hexp : me.expQ 0 = 1) (hsteps : 2 ≤ steps) :
    okY (simulate_monte_carlo me re mcZeroParams mcZeroY0 ts steps meth)
      = [List.replicate steps 100]
    ∧ mGet (okMets (simulate_monte_carlo me re mcZeroParams mcZeroY0 ts steps meth))
        "prob_profit_pct" = some (.num 0) := by
  constructor <;>
    norm_num +decide [simulate_monte_carlo, okY, okMets, mGet, mcZeroParams,
      mcZeroY0, pyGetD, pyGet, pyInt, mcPath_zero_drift hexp, List.map_const',
      listMean_replicate, List.map_replicate, List.length_range, lastD]

/-- Witness for C5 with a concrete environment and a two-point grid. -/
theorem monte_carlo_zero_vol_constant_witness :
    okY (simulate_monte_carlo meW reW mcZeroParams mcZeroY0 (0, 1) 2 .RK45)
      = [List.replicate 2 100]
    ∧ mGet (okMets (simulate_monte_carlo meW reW mcZeroParams mcZeroY0 (0, 1) 2 .RK45))
        "prob_profit_pct" = some (.num 0) :=
  monte_carlo_zero_vol_constant meW reW (0, 1) 2 .RK45
    (by norm_num [meW]) (by norm_num)

/-- Folding the landing loop distributes over list concatenation. -/
theorem lastHit_append (p : ℕ → Prop) [DecidablePred p] (a : ℕ)
    (l1 l2 : List ℕ) :
    lastHit p a (l1 ++ l2) = lastHit p (lastHit p a l1) l2 := by
  induction l1 generalizing a with
  | nil => rfl
  | cons x xs ih =>
    simp only [List.cons_append, lastHit]
    exact ih _

/-- The landing loop over `range(1, 1+n)` returns its initial value
when no index satisfies the test, and otherwise the greatest satisfying
index (with its bounds). -/
theorem lastHit_range'_spec (p : ℕ → Prop) [DecidablePred p] (a : ℕ)
    (n : ℕ) :
    ((∀ i, 1 ≤ i → i < 1 + n → ¬ p i) → lastHit p a (List.range' 1 n) = a)
    ∧ (∀ j, 1 ≤ j → j < 1 + n → p j →
        p (lastHit p a (List.range' 1 n))
        ∧ j ≤ lastHit p a (List.range' 1 n)
        ∧ 1 ≤ lastHit p a (List.range' 1 n)
        ∧ lastHit p a (List.range' 1 n) < 1 + n) := by
  induction n with
  | zero =>
    refine ⟨fun _ => rfl, fun j h1 h2 _ => ?_⟩
    omega
  | succ n ih =>
    have hconcat : List.range' 1 (n + 1) = List.range' 1 n ++ [1 + n] := by
      rw [List.range'_concat]
      norm_num
    rw [hconcat, lastHit_append]
    by_cases hp : p (1 + n)
    · have hred : lastHit p (lastHit p a (List.range' 1 n)) [1 + n] = 1 + n := by
        simp [lastHit, hp]
      rw [hred]
      exact ⟨fun hnone => absurd hp (hnone (1 + n) (by omega) (by omega)),
        fun j h1 h2 _ => ⟨hp, by omega, by omega, by omega⟩⟩
    · have hred : lastHit p (lastHit p a (List.range' 1 n)) [1 + n]
          = lastHit p a (List.range' 1 n) := by
        simp [lastHit, hp]
      rw [hred]
      constructor
      · intro hnone
        exact ih.1 (fun i hi1 hi2 => hnone i hi1 (by omega))
      · intro j h1 h2 hpj
        have hj : j < 1 + n := by
          rcases Nat.lt_or_ge j (1 + n) with h | h
          · exact h
          · exfalso
            have : j = 1 + n := by omega
            subst this
            exact hp hpj
        obtain ⟨q1, q2, q3, q4⟩ := ih.2 j h1 hj hpj
        exact ⟨q1, q2, q3, by omega⟩

/-- The landing index is the last transition index when one exists and
the final grid point otherwise. -/
theorem landingIdx_spec (yVals : List ℚ) (h0 : ℚ) :
    ((¬ ∃ i, landingTransition yVals h0 i) →
      landingIdx yVals h0 = yVals.length - 1)
    ∧ (∀ j, landingTransition yVals h0 j →
        landingTransition yVals h0 (landingIdx yVals h0)
        ∧ j ≤ landingIdx yVals h0) := by
  unfold landingIdx
  have h := lastHit_range'_spec (landingCond yVals h0)
    (yVals.length - 1) (yVals.length - 1)
  constructor
  · intro hne
    apply h.1
    intro i h1 h2 hc
    exact hne ⟨i, h1, by omega, hc⟩
  · rintro j ⟨hj1, hj2, hjc⟩
    have h2 : j < 1 + (yVals.length - 1) := by omega
    obtain ⟨q1, q2, q3, q4⟩ := h.2 j hj1 h2 hjc
    exact ⟨⟨q3, by omega, q1⟩, q2⟩

/-- C8: the projectile landing index is the last time index `i ≥ 1`
where height transitions from `≥ initial height` at `i-1` to
`< initial height` at `i` (the final grid point when no transition
exists), and the `range`, `t_landing` and `v_final` metrics are the
horizontal position, time point and speed magnitude at exactly that
index. -/
theorem projectile_landing_index_metrics (me : MathEnv)
    (params y0 : PyDict) (ts : ℚ × ℚ) (steps : ℕ) (meth : Method)
    (t : List ℚ) (Y : List (List ℚ)) (mets : Metrics)
    (h : simulate_projectile me params y0 ts steps meth = .ok (t, Y, mets)) :
    ((¬ ∃ i, landingTransition (Y.getD 1 []) (pyGetD y0 "y" 0) i) →
      landingIdx (Y.getD 1 []) (pyGetD y0 "y" 0) = (Y.getD 1 []).length - 1)
    ∧ (∀ j, landingTransition (Y.getD 1 []) (pyGetD y0 "y" 0) j →
        landingTransition (Y.getD 1 []) (pyGetD y0 "y" 0)
            (landingIdx (Y.getD 1 []) (pyGetD y0 "y" 0))
        ∧ j ≤ landingIdx (Y.getD 1 []) (pyGetD y0 "y" 0))
    ∧ mGet mets "range" =
        some (.num ((Y.getD 0 []).getD
          (landingIdx (Y.getD 1 []) (pyGetD y0 "y" 0)) 0))
    ∧ mGet mets "t_landing" =
        some (.num (t.getD (landingIdx (Y.getD 1 []) (pyGetD y0 "y" 0)) 0))
    ∧ mGet mets "v_final" =
        some (.num ((vTotalList me (Y.getD 2 []) (Y.getD 3 [])).getD
          (landingIdx (Y.getD 1 []) (pyGetD y0 "y" 0)) 0)) := by
  refine ⟨(landingIdx_spec _ _).1, (landingIdx_spec _ _).2, ?_, ?_, ?_⟩ <;>
  · simp only [simulate_projectile] at h
    split at h
    · cases h
    · injection h with h2
      cases h2
      norm_num +decide [mGet]

/-- Witness for C8: a concrete run whose height row `[0, 5, -1]`
descends through the initial height 0 at index 2. -/
theorem projectile_landing_index_metrics_witness :
    ((¬ ∃ i, landingTransition
        ((okY (simulate_projectile meProj [] [] (0, 1) 3 .RK45)).getD 1 [])
        (pyGetD [] "y" 0) i) →
      landingIdx ((okY (simulate_projectile meProj [] [] (0, 1) 3 .RK45)).getD 1 [])
          (pyGetD [] "y" 0)
        = ((okY (simulate_projectile meProj [] [] (0, 1) 3 .RK45)).getD 1 []).length - 1)
    ∧ (∀ j, landingTransition
        ((okY (simulate_projectile meProj [] [] (0, 1) 3 .RK45)).getD 1 [])
        (pyGetD [] "y" 0) j →
        landingTransition
            ((okY (simulate_projectile meProj [] [] (0, 1) 3 .RK45)).getD 1 [])
            (pyGetD [] "y" 0)
            (landingIdx ((okY (simulate_projectile meProj [] [] (0, 1) 3 .RK45)).getD 1 [])
              (pyGetD [] "y" 0))
        ∧ j ≤ landingIdx ((okY (simulate_projectile meProj [] [] (0, 1) 3 .RK45)).getD 1 [])
              (pyGetD [] "y" 0))
    ∧ mGet (okMets (simulate_projectile meProj [] [] (0, 1) 3 .RK45)) "range" =
        some (.num (((okY (simulate_projectile meProj [] [] (0, 1) 3 .RK45)).getD 0 []).getD
          (landingIdx ((okY (simulate_projectile meProj [] [] (0, 1) 3 .RK45)).getD 1 [])
            (pyGetD [] "y" 0)) 0))
    ∧ mGet (okMets (simulate_projectile meProj [] [] (0, 1) 3 .RK45)) "t_landing" =
        some (.num ((okT (simulate_projectile meProj [] [] (0, 1) 3 .RK45)).getD
          (landingIdx ((okY (simulate_projectile meProj [] [] (0, 1) 3 .RK45)).getD 1 [])
            (pyGetD [] "y" 0)) 0))
    ∧ mGet (okMets (simulate_projectile meProj [] [] (0, 1) 3 .RK45)) "v_final" =
        some (.num ((vTotalList meProj
          ((okY (simulate_projectile meProj [] [] (0, 1) 3 .RK45)).getD 2 [])
          ((okY (simulate_projectile meProj [] [] (0, 1) 3 .RK45)).getD 3 [])).getD
          (landingIdx ((okY (simulate_projectile meProj [] [] (0, 1) 3 .RK45)).getD 1 [])
            (pyGetD [] "y" 0)) 0)) :=
  projectile_landing_index_metrics meProj [] [] (0, 1) 3 .RK45
    (okT (simulate_projectile meProj [] [] (0, 1) 3 .RK45))
    (okY (simulate_projectile meProj [] [] (0, 1) 3 .RK45))
    (okMets (simulate_projectile meProj [] [] (0, 1) 3 .RK45)) rfl
